import Mathlib

/-!
Shallow embedding of the `ootel` Go package (alpineworks/ootel): an
OpenTelemetry configuration facade.  The embedding models the package
`ootel` (file `ootel.go`, the version with `ExporterType` in
`metricConfig`) and the `healthcheck` package.

External collaborators (the OpenTelemetry SDK constructors, the
Prometheus exporter, `os.Hostname`) are modelled by an `Env` record
giving the outcome of each external call; the facade's own logic —
option composition, conditional subsystem bring-up, the exporter-type
switch, the shutdown aggregation loop, and the HTTP route registration —
is translated from the source.  Global side effects
(`otel.SetTextMapPropagator`, `otel.SetTracerProvider`,
`otel.SetMeterProvider`, and the forked `startServer`) are recorded as
an ordered list of `Effect`s.  A Go `(func, error)` return where exactly
one of the two is nil is modelled as `Except`: `.error e` is the
`(nil, err)` return, `.ok v` the `(v, nil)` return.
-/

namespace Ootel

/-- Go `context.Context`, opaque to this package: only threaded through. -/
def Ctx : Type := Nat

/-- Go `error` values as built by this package: `errors.New`/`fmt.Errorf`
plain messages (`mk`), `fmt.Errorf("...: %w", err)` wrapping (`wrap`),
and `errors.Join` over a non-empty slice of errors (`joined`). -/
inductive GoErr : Type where
  | mk (msg : String) : GoErr
  | wrap (prefixMsg : String) (cause : GoErr) : GoErr
  | joined (errs : List GoErr) : GoErr

mutual
/-- Rendering of a `GoErr` to its `Error()` string: `fmt.Errorf` with a
`%w` verb renders as the message, a colon and space, then the wrapped
error; `errors.Join` renders the messages joined by newlines. -/
def GoErr.render : GoErr → String
  | .mk msg => msg
  | .wrap p cause => p ++ ": " ++ cause.render
  | .joined errs => GoErr.renderList errs
/-- Rendering of a list of joined errors, newline-separated. -/
def GoErr.renderList : List GoErr → String
  | [] => ""
  | [e] => e.render
  | e :: rest => e.render ++ "\n" ++ GoErr.renderList rest
end

/-- One string occurs inside another (the property `strings.Contains`
would decide). -/
def strContains (s sub : String) : Prop := ∃ pre post, s = pre ++ sub ++ post

/-- Go `traceConfig` struct. -/
structure traceConfig : Type where
  Enabled        : Bool
  SampleRate     : Float
  ServiceName    : String
  ServiceVersion : String

/-- Go `metricConfig` struct. -/
structure metricConfig : Type where
  Enabled      : Bool
  ExporterType : String
  ServerPort   : Int

/-- Go `OotelClient` struct; the two `*config` pointer fields become
`Option`s, `nil` being `none`. -/
structure OotelClient : Type where
  traceConfig  : Option traceConfig := none
  metricConfig : Option metricConfig := none

/-- Go `OotelClientOption`: a mutation of the client under construction. -/
def OotelClientOption : Type := OotelClient → OotelClient

/-- Go `NewOotelClient`: start from the zero-value client and apply each
option in the order given. -/
def NewOotelClient (options : List OotelClientOption) : OotelClient :=
  options.foldl (fun client option => option client) {}

/-- Go `NewTraceConfig`. -/
def NewTraceConfig (enabled : Bool) (sampleRate : Float)
    (serviceName serviceVersion : String) : traceConfig :=
  { Enabled := enabled, SampleRate := sampleRate,
    ServiceName := serviceName, ServiceVersion := serviceVersion }

/-- Go `WithTraceConfig`: sets the trace config field of the client. -/
def WithTraceConfig (tc : traceConfig) : OotelClientOption :=
  fun oc => { oc with traceConfig := some tc }

/-- Go `NewMetricConfig`. -/
def NewMetricConfig (enabled : Bool) (exporterType : String)
    (serverPort : Int) : metricConfig :=
  { Enabled := enabled, ExporterType := exporterType, ServerPort := serverPort }

/-- Go `WithMetricConfig`: sets the metric config field of the client. -/
def WithMetricConfig (mc : metricConfig) : OotelClientOption :=
  fun oc => { oc with metricConfig := some mc }

/-- The two option constructors the package exports, as syntax, so that
claims can quantify over lists of options passed to `NewOotelClient`. -/
inductive ConfigOption : Type where
  | withTrace (tc : traceConfig) : ConfigOption
  | withMetric (mc : metricConfig) : ConfigOption

/-- Interpretation of a syntactic option as the closure the package
builds for it. -/
def ConfigOption.interp : ConfigOption → OotelClientOption
  | .withTrace tc => WithTraceConfig tc
  | .withMetric mc => WithMetricConfig mc

/-- Exported exporter-type constant `ExporterTypePrometheus`. -/
def ExporterTypePrometheus : String := "prometheus"

/-- Exported exporter-type constant `ExporterTypeOTLPGRPC`. -/
def ExporterTypeOTLPGRPC : String := "otlpgrpc"

/-- Exported exporter-type constant `ExporterTypeOTLPHTTP`. -/
def ExporterTypeOTLPHTTP : String := "otlphttp"

/-- A span exporter handle returned by `otlptracegrpc.New` (opaque). -/
structure SpanExporter : Type where
  id : Nat
deriving DecidableEq

/-- A metric exporter handle returned by `prometheus.New`,
`otlpmetricgrpc.New` or `otlpmetrichttp.New` (opaque). -/
structure MetricExporter : Type where
  id : Nat
deriving DecidableEq

/-- A resource descriptor as produced by `resource.Merge` (opaque). -/
structure Resource : Type where
  id : Nat
deriving DecidableEq

/-- The sampler tree built by the trace subsystem. -/
inductive Sampler : Type where
  | traceIDRatioBased (ratio : Float) : Sampler
  | parentBased (root : Sampler) : Sampler

/-- The span-processor chain built by the trace subsystem. -/
inductive SpanProcessor : Type where
  | batch (e : SpanExporter) : SpanProcessor

/-- What `trace.NewTracerProvider` is configured with, plus the
behaviour of the provider's `Shutdown` method (supplied by the SDK,
hence by the environment). -/
structure TracerProvider : Type where
  processor : SpanProcessor
  sampler : Sampler
  res : Resource
  shutdownBehavior : Ctx → Option GoErr

/-- The reader wiring chosen by the exporter-type switch: the prometheus
pull exporter is used as a reader directly, the OTLP push exporters are
wrapped in `metric.NewPeriodicReader`. -/
inductive MetricReader : Type where
  | direct (e : MetricExporter) : MetricReader
  | periodic (e : MetricExporter) : MetricReader

/-- What `metric.NewMeterProvider` is configured with, plus the
behaviour of the provider's `Shutdown` method. -/
structure MeterProvider : Type where
  reader : MetricReader
  shutdownBehavior : Ctx → Option GoErr

/-- The individual text-map propagators named in `Init`. -/
inductive PropagatorPart : Type where
  | traceContext : PropagatorPart
  | baggage : PropagatorPart
deriving DecidableEq

/-- A text-map propagator; `Init` installs a composite one. -/
inductive Propagator : Type where
  | composite (parts : List PropagatorPart) : Propagator

/-- The composite propagator `Init` installs:
`propagation.NewCompositeTextMapPropagator(propagation.TraceContext{}, propagation.Baggage{})`. -/
def compositePropagator : Propagator :=
  .composite [.traceContext, .baggage]

/-- Outcomes of every external call the package makes, and the behaviour
of external handles; this is the non-deterministic environment the
theorems quantify over. -/
structure Env : Type where
  otlptracegrpcNew : Except GoErr SpanExporter
  resourceMerge : Except GoErr Resource
  prometheusNew : Except GoErr MetricExporter
  otlpmetricgrpcNew : Except GoErr MetricExporter
  otlpmetrichttpNew : Except GoErr MetricExporter
  tracerShutdown : Ctx → Option GoErr
  meterShutdown : Ctx → Option GoErr
  osHostname : Except GoErr String
  promExposition : String

/-- Global side effects `Init` performs, in order. -/
inductive Effect : Type where
  | setTextMapPropagator (p : Propagator) : Effect
  | setTracerProvider (tp : TracerProvider) : Effect
  | setMeterProvider (mp : MeterProvider) : Effect
  | startServerAsync (port : Int) (isPrometheus : Bool) : Effect

/-- Go `traceProvider(ctx, tc)`: build the OTLP gRPC span exporter (may
fail), merge the resource (a failure is wrapped as
`failed to create trace resource`), then assemble the provider with a
batch span processor and a parent-based ratio sampler. -/
def traceProvider (env : Env) (tc : traceConfig) : Except GoErr TracerProvider :=
  match env.otlptracegrpcNew with
  | .error err => .error err
  | .ok traceExporter =>
    match env.resourceMerge with
    | .error err => .error (.wrap "failed to create trace resource" err)
    | .ok traceResource =>
      .ok { processor := .batch traceExporter,
            sampler := .parentBased (.traceIDRatioBased tc.SampleRate),
            res := traceResource,
            shutdownBehavior := env.tracerShutdown }

/-- Go `meterProvider(ctx, exporterType)`: the exporter-type switch.
Each recognized kind builds its exporter (a failure is wrapped with a
kind-specific message); the default case fails with
`unsupported metric exporter type: <value>`. -/
def meterProvider (env : Env) (exporterType : String) : Except GoErr MeterProvider :=
  if exporterType = ExporterTypePrometheus then
    match env.prometheusNew with
    | .error err => .error (.wrap "failed to create prometheus metric exporter" err)
    | .ok metricExporter =>
      .ok { reader := .direct metricExporter, shutdownBehavior := env.meterShutdown }
  else if exporterType = ExporterTypeOTLPGRPC then
    match env.otlpmetricgrpcNew with
    | .error err => .error (.wrap "failed to create otlpgrpc metric exporter" err)
    | .ok metricExporter =>
      .ok { reader := .periodic metricExporter, shutdownBehavior := env.meterShutdown }
  else if exporterType = ExporterTypeOTLPHTTP then
    match env.otlpmetrichttpNew with
    | .error err => .error (.wrap "failed to create otlphttp metric exporter" err)
    | .ok metricExporter =>
      .ok { reader := .periodic metricExporter, shutdownBehavior := env.meterShutdown }
  else
    .error (.mk ("unsupported metric exporter type: " ++ exporterType))

/-- An entry of the `shutdownFuncs` slice in `Init`.  The code only ever
appends `meterProvider.Shutdown`; the `tracerProviderShutdown`
constructor exists purely as vocabulary, so that claims about which
teardowns are registered can be stated (and refuted). -/
inductive RegisteredShutdown : Type where
  | meterProviderShutdown (mp : MeterProvider) : RegisteredShutdown
  | tracerProviderShutdown (tp : TracerProvider) : RegisteredShutdown

/-- Invoking one registered teardown callable on a context. -/
def RegisteredShutdown.run : RegisteredShutdown → Ctx → Option GoErr
  | .meterProviderShutdown mp, ctx => mp.shutdownBehavior ctx
  | .tracerProviderShutdown tp, ctx => tp.shutdownBehavior ctx

/-- The loop body of the `shutdown` closure in `Init`: invoke each
registered callable in order, appending each non-nil error to `errs`. -/
def shutdownLoop : List RegisteredShutdown → Ctx → List GoErr
  | [], _ => []
  | f :: rest, ctx =>
    match f.run ctx with
    | some err => err :: shutdownLoop rest ctx
    | none => shutdownLoop rest ctx

/-- Go `errors.Join(errs...)`: nil when the slice is empty, otherwise a
joined error over the slice. -/
def errorsJoin (errs : List GoErr) : Option GoErr :=
  if errs.isEmpty then none else some (.joined errs)

/-- The `shutdown` closure returned by `Init`, applied to the final
contents of `shutdownFuncs` (the closure captures the variable, so it
sees the appends done later in `Init`). -/
def runShutdown (funcs : List RegisteredShutdown) (ctx : Ctx) : Option GoErr :=
  errorsJoin (shutdownLoop funcs ctx)

/-- The returned shutdown value as a closure over its captured slice;
invoking it yields the call result and the (unchanged) closure, since
the closure body never writes `shutdownFuncs` and keeps no other state. -/
structure ShutdownClosure : Type where
  captured : List RegisteredShutdown

/-- One invocation of the shutdown closure. -/
def invokeShutdown (c : ShutdownClosure) (ctx : Ctx) :
    Option GoErr × ShutdownClosure :=
  (runShutdown c.captured ctx, c)

/-- A sequence of invocations of the shutdown closure, threading the
closure through each call. -/
def invokeShutdownSeq (c : ShutdownClosure) : List Ctx → List (Option GoErr)
  | [] => []
  | ctx :: rest =>
    let r := invokeShutdown c ctx
    r.1 :: invokeShutdownSeq r.2 rest

/-- The metric half of `Init` (the `oc.metricConfig` block): on an
enabled metric config, build the meter provider (a failure is wrapped as
`failed to create meter provider` and aborts with a nil shutdown
function), append its `Shutdown` to `shutdownFuncs`, install it as the
global meter provider, and fork `startServer` with the configured port
and the flag `oc.metricConfig.ExporterType == "prometheus"`. -/
def initMetricPhase (env : Env) (oc : OotelClient)
    (shutdownFuncs : List RegisteredShutdown) (effects : List Effect) :
    Except GoErr (List RegisteredShutdown) × List Effect :=
  match oc.metricConfig with
  | some mc =>
    if mc.Enabled then
      match meterProvider env mc.ExporterType with
      | .error err => (.error (.wrap "failed to create meter provider" err), effects)
      | .ok mp =>
        (.ok (shutdownFuncs ++ [.meterProviderShutdown mp]),
         effects ++ [.setMeterProvider mp,
                     .startServerAsync mc.ServerPort (mc.ExporterType == "prometheus")])
    else (.ok shutdownFuncs, effects)
  | none => (.ok shutdownFuncs, effects)

/-- Go `(oc *OotelClient) Init(ctx)`: start with an empty
`shutdownFuncs` slice; if tracing is enabled, first install the
composite propagator, then build the trace provider (a failure is
wrapped as `failed to create trace provider` and aborts with a nil
shutdown function, the propagator staying installed) and install it;
then run the metric phase.  The result is the returned
`(shutdown, error)` pair — `.ok funcs` standing for the closure
`runShutdown funcs` — together with the ordered global effects. -/
def Init (env : Env) (oc : OotelClient) :
    Except GoErr (List RegisteredShutdown) × List Effect :=
  match oc.traceConfig with
  | some tc =>
    if tc.Enabled then
      let effects := [Effect.setTextMapPropagator compositePropagator]
      match traceProvider env tc with
      | .error err => (.error (.wrap "failed to create trace provider" err), effects)
      | .ok tp => initMetricPhase env oc [] (effects ++ [.setTracerProvider tp])
    else initMetricPhase env oc [] []
  | none => initMetricPhase env oc [] []

/-- An HTTP request as the handlers see it: method, path and body. -/
structure HttpRequest : Type where
  method : String
  path : String
  body : String

/-- An HTTP response: status code and body. -/
structure HttpResponse : Type where
  status : Nat
  body : String
deriving DecidableEq

/-- The JSON body `json.NewEncoder(w).Encode(&Health{Healthy: true,
Hostname: hostname})` writes (the encoder terminates with a newline). -/
def healthJSON (hostname : String) : String :=
  "\x7b\"healthy\":true,\"hostname\":\"" ++ hostname ++ "\"\x7d\n"

/-- Go `healthcheck.HealthcheckHandler`: resolve `os.Hostname`; on
failure write status 500 and no body; on success write the JSON health
payload (implicit status 200 on first body write).  The request is
received but never inspected. -/
def HealthcheckHandler (env : Env) (_r : HttpRequest) : HttpResponse :=
  match env.osHostname with
  | .error _ => { status := 500, body := "" }
  | .ok hostname => { status := 200, body := healthJSON hostname }

/-- The handlers that `startServer` can register. -/
inductive Handler : Type where
  | healthcheck : Handler
  | promMetrics : Handler
deriving DecidableEq

/-- The mux `startServer(port, isPrometheus)` builds:
`/healthcheck` is always registered; `/metrics` (the promhttp exposition
handler) only when `isPrometheus` is true. -/
def startServerRoutes (isPrometheus : Bool) : List (String × Handler) :=
  [("/healthcheck", .healthcheck)] ++
    (if isPrometheus then [("/metrics", .promMetrics)] else [])

/-- Serving one request against a mux: an unregistered path yields the
`net/http` 404 response; registered paths dispatch to their handler
(the mux places no restriction on the request method). -/
def serveRequest (env : Env) (routes : List (String × Handler))
    (req : HttpRequest) : HttpResponse :=
  match routes.lookup req.path with
  | none => { status := 404, body := "404 page not found\n" }
  | some .healthcheck => HealthcheckHandler env req
  | some .promMetrics => { status := 200, body := env.promExposition }

/-! Concrete instances used to instantiate witnesses. -/

/-- A trace config as the example program builds it. -/
def tcA : traceConfig := NewTraceConfig true 1.0 "example-service" "1.0.0"

/-- A prometheus metric config as the example program builds it. -/
def mcProm : metricConfig := NewMetricConfig true "prometheus" 8081

/-- An OTLP gRPC metric config. -/
def mcGrpc : metricConfig := NewMetricConfig true "otlpgrpc" 8081

/-- A metric config with an unrecognized exporter type. -/
def mcBogus : metricConfig := NewMetricConfig true "bogus" 9090

/-- An environment in which every external call succeeds. -/
def envA : Env where
  otlptracegrpcNew := .ok ⟨0⟩
  resourceMerge := .ok ⟨0⟩
  prometheusNew := .ok ⟨1⟩
  otlpmetricgrpcNew := .ok ⟨2⟩
  otlpmetrichttpNew := .ok ⟨3⟩
  tracerShutdown := fun _ => none
  meterShutdown := fun _ => none
  osHostname := .ok "host-a"
  promExposition := "ootel_example_metric 1"

/-- An environment in which the OTLP gRPC span exporter fails to build. -/
def envTraceFail : Env :=
  { envA with otlptracegrpcNew := .error (.mk "dial error") }

/-- An environment in which hostname resolution fails. -/
def envHostFail : Env :=
  { envA with osHostname := .error (.mk "no hostname") }

/-- A client with tracing and prometheus metrics enabled. -/
def ocBoth : OotelClient :=
  { traceConfig := some tcA, metricConfig := some mcProm }

/-- A client with only tracing enabled. -/
def ocTraceOnly : OotelClient :=
  { traceConfig := some tcA, metricConfig := none }

/-- A client with only OTLP gRPC metrics enabled. -/
def ocGrpcOnly : OotelClient :=
  { traceConfig := none, metricConfig := some mcGrpc }

/-- A client whose metric config has an unrecognized exporter type. -/
def ocBogus : OotelClient :=
  { traceConfig := none, metricConfig := some mcBogus }

/-- The meter provider `Init` builds for `mcGrpc` in `envA`. -/
def mpGrpcA : MeterProvider where
  reader := .periodic ⟨2⟩
  shutdownBehavior := envA.meterShutdown

/-- The meter provider `Init` builds for `mcProm` in `envA`. -/
def mpPromA : MeterProvider where
  reader := .direct ⟨1⟩
  shutdownBehavior := envA.meterShutdown

/-- The tracer provider `Init` builds for `tcA` in `envA`. -/
def tpA : TracerProvider where
  processor := .batch ⟨0⟩
  sampler := .parentBased (.traceIDRatioBased 1.0)
  res := ⟨0⟩
  shutdownBehavior := envA.tracerShutdown

/-! Helper lemmas shared by the claim theorems. -/

/-- The shutdown loop collects exactly the non-nil results of invoking
every registered callable, in registration order. -/
theorem shutdownLoop_eq_filterMap (funcs : List RegisteredShutdown) (ctx : Ctx) :
    shutdownLoop funcs ctx = funcs.filterMap (fun f => f.run ctx) := by
  induction funcs with
  | nil => rfl
  | cons f rest ih =>
    cases h : f.run ctx <;> simp [shutdownLoop, h, ih]

/-- Go `errors.Join` returns nil exactly on the empty slice. -/
theorem errorsJoin_eq_none_iff (errs : List GoErr) :
    errorsJoin errs = none ↔ errs = [] := by
  cases errs <;> simp [errorsJoin]

/-! Claim theorems. -/

/-- C6: for every list of registered teardown callables and every
context, the shutdown callable returned by `Init` invokes every
registered callable (collecting exactly the non-nil errors, in order,
rather than stopping at the first failure) and returns the join of the
collected errors, which is nil exactly when every callable succeeded. -/
theorem runShutdown_joins_all_errors (funcs : List RegisteredShutdown) (ctx : Ctx) :
    shutdownLoop funcs ctx = funcs.filterMap (fun f => f.run ctx) ∧
    runShutdown funcs ctx = errorsJoin (funcs.filterMap (fun f => f.run ctx)) ∧
    (runShutdown funcs ctx = none ↔ ∀ f ∈ funcs, f.run ctx = none) := by
  refine ⟨shutdownLoop_eq_filterMap funcs ctx, ?_, ?_⟩
  · unfold runShutdown
    rw [shutdownLoop_eq_filterMap]
  · unfold runShutdown
    rw [shutdownLoop_eq_filterMap, errorsJoin_eq_none_iff, List.filterMap_eq_nil_iff]

/-- C10: the shutdown callable has no single-invocation guard: invoking
it any number of times in sequence threads the closure through
unchanged, and each call again iterates the full registered list on its
own context, its result being the join of that call's outcomes alone. -/
theorem invokeShutdownSeq_stateless (funcs : List RegisteredShutdown) (ctxs : List Ctx) :
    invokeShutdownSeq ⟨funcs⟩ ctxs =
      ctxs.map (fun ctx => errorsJoin (shutdownLoop funcs ctx)) ∧
    (∀ ctx, (invokeShutdown ⟨funcs⟩ ctx).2 = ⟨funcs⟩) := by
  constructor
  · induction ctxs with
    | nil => rfl
    | cons ctx rest ih => simp [invokeShutdownSeq, invokeShutdown, runShutdown, ih]
  · intro ctx
    rfl

/-- C7: on any request to the health route, a hostname-resolution
failure yields a server-error status with an empty body, and a resolved
hostname yields status 200 with the JSON health payload. -/
theorem healthcheckHandler_contract (env : Env) (r : HttpRequest) :
    (∀ e, env.osHostname = .error e →
      HealthcheckHandler env r = { status := 500, body := "" }) ∧
    (∀ h, env.osHostname = .ok h →
      HealthcheckHandler env r = { status := 200, body := healthJSON h }) := by
  constructor
  · intro e he
    simp [HealthcheckHandler, he]
  · intro h hh
    simp [HealthcheckHandler, hh]

/-- Witness for C7 at concrete environments exercising both branches. -/
theorem healthcheckHandler_contract_witness :
    HealthcheckHandler envHostFail ⟨"GET", "/healthcheck", ""⟩ =
      { status := 500, body := "" } ∧
    HealthcheckHandler envA ⟨"GET", "/healthcheck", ""⟩ =
      { status := 200, body := healthJSON "host-a" } :=
  ⟨(healthcheckHandler_contract envHostFail ⟨"GET", "/healthcheck", ""⟩).1
      (.mk "no hostname") rfl,
   (healthcheckHandler_contract envA ⟨"GET", "/healthcheck", ""⟩).2 "host-a" rfl⟩

/-- C9: the health handler ignores the request method and body: the
route registration places no method restriction, so any two requests to
the health route — whatever their methods and bodies — receive the same
response, and the handler itself produces the same response for any two
requests. -/
theorem healthcheck_ignores_method_and_body (env : Env) (isProm : Bool)
    (m1 m2 b1 b2 : String) :
    serveRequest env (startServerRoutes isProm) ⟨m1, "/healthcheck", b1⟩ =
      serveRequest env (startServerRoutes isProm) ⟨m2, "/healthcheck", b2⟩ ∧
    (∀ r1 r2 : HttpRequest, HealthcheckHandler env r1 = HealthcheckHandler env r2) := by
  constructor
  · cases isProm <;> simp [serveRequest, startServerRoutes, List.lookup, HealthcheckHandler]
  · intro r1 r2
    rfl

/-- The last trace config among an option list, scanning left to right
(a later `withTrace` overwrites an earlier one; `withMetric` options do
not touch it).  This is the claim-side reading of last-write-wins. -/
def lastTraceOption (opts : List ConfigOption) : Option traceConfig :=
  opts.foldl
    (fun acc o => match o with
      | .withTrace tc => some tc
      | .withMetric _ => acc)
    none

/-- The last metric config among an option list, scanning left to
right. -/
def lastMetricOption (opts : List ConfigOption) : Option metricConfig :=
  opts.foldl
    (fun acc o => match o with
      | .withMetric mc => some mc
      | .withTrace _ => acc)
    none

/-- Applying a list of option closures to a client updates the two
fields independently, each as a left fold of the options targeting it. -/
theorem applyOptions_fields (opts : List ConfigOption) (c : OotelClient) :
    (opts.map ConfigOption.interp).foldl (fun client option => option client) c =
      { traceConfig := opts.foldl
          (fun acc o => match o with
            | .withTrace tc => some tc
            | .withMetric _ => acc)
          c.traceConfig,
        metricConfig := opts.foldl
          (fun acc o => match o with
            | .withMetric mc => some mc
            | .withTrace _ => acc)
          c.metricConfig } := by
  induction opts generalizing c with
  | nil => rfl
  | cons o rest ih =>
    cases o with
    | withTrace tc =>
      simp only [List.map_cons, List.foldl_cons, ConfigOption.interp, WithTraceConfig]
      exact ih { c with traceConfig := some tc }
    | withMetric mc =>
      simp only [List.map_cons, List.foldl_cons, ConfigOption.interp, WithMetricConfig]
      exact ih { c with metricConfig := some mc }

/-- C8: `NewOotelClient` applies the options in the order given; each
`WithTraceConfig`/`WithMetricConfig` option sets exactly its own field
and leaves the other unchanged; and for each field the resulting client
holds the value of the last option targeting it. -/
theorem newOotelClient_last_write_wins (opts : List ConfigOption) :
    NewOotelClient (opts.map ConfigOption.interp) =
      { traceConfig := lastTraceOption opts,
        metricConfig := lastMetricOption opts } ∧
    (∀ (oc : OotelClient) (tc : traceConfig),
      WithTraceConfig tc oc = { oc with traceConfig := some tc }) ∧
    (∀ (oc : OotelClient) (mc : metricConfig),
      WithMetricConfig mc oc = { oc with metricConfig := some mc }) := by
  refine ⟨?_, fun oc tc => rfl, fun oc mc => rfl⟩
  unfold NewOotelClient lastTraceOption lastMetricOption
  exact applyOptions_fields opts {}

/-- The metric phase only ever appends to the effect list it is given. -/
theorem initMetricPhase_effects_append (env : Env) (oc : OotelClient)
    (funcs : List RegisteredShutdown) (effs : List Effect) :
    ∃ tail, (initMetricPhase env oc funcs effs).2 = effs ++ tail := by
  unfold initMetricPhase
  cases hm : oc.metricConfig with
  | none => exact ⟨[], by simp⟩
  | some mc =>
    cases hen : mc.Enabled with
    | false => exact ⟨[], by simp [hen]⟩
    | true =>
      cases hmp : meterProvider env mc.ExporterType with
      | error e => exact ⟨[], by simp [hen, hmp]⟩
      | ok mp =>
        exact ⟨[Effect.setMeterProvider mp,
          Effect.startServerAsync mc.ServerPort (mc.ExporterType == "prometheus")],
          by simp [hen, hmp]⟩

/-- C4: with both configs absent or disabled, `Init` succeeds with an
empty registered-teardown list and performs no global effect (no
propagator, no provider installation, no server start), and the
returned shutdown callable invokes no teardown callables and returns
nil on every context. -/
theorem init_disabled_is_noop (env : Env) (oc : OotelClient)
    (htc : oc.traceConfig = none ∨
      ∃ tc, oc.traceConfig = some tc ∧ tc.Enabled = false)
    (hmc : oc.metricConfig = none ∨
      ∃ mc, oc.metricConfig = some mc ∧ mc.Enabled = false) :
    Init env oc = (.ok [], []) ∧
    (∀ ctx, shutdownLoop [] ctx = [] ∧ runShutdown [] ctx = none) := by
  constructor
  · have hmetric : initMetricPhase env oc [] [] = (.ok [], []) := by
      rcases hmc with h | ⟨mc, h, hen⟩
      · simp [initMetricPhase, h]
      · simp [initMetricPhase, h, hen]
    rcases htc with h | ⟨tc, h, hen⟩
    · simp [Init, h, hmetric]
    · simp [Init, h, hen, hmetric]
  · intro ctx
    exact ⟨rfl, rfl⟩

/-- Witness for C4 at the empty client in a fully healthy environment. -/
theorem init_disabled_is_noop_witness :
    Init envA {} = (.ok [], []) ∧
    (∀ ctx, shutdownLoop [] ctx = [] ∧ runShutdown [] ctx = none) :=
  init_disabled_is_noop envA {} (Or.inl rfl) (Or.inl rfl)

/-- C5: whenever tracing is enabled, the very first global effect of
`Init` is the installation of the composite (trace-context + baggage)
text-map propagator — in particular it happens on runs where trace
provider construction then fails; on such a failure `Init` aborts with a
nil shutdown function and the wrapped error, the propagator
installation being its only effect (no rollback). -/
theorem init_propagator_precedes_trace_build (env : Env) (oc : OotelClient)
    (tc : traceConfig) (htc : oc.traceConfig = some tc)
    (hen : tc.Enabled = true) :
    (Init env oc).2.head? = some (.setTextMapPropagator compositePropagator) ∧
    (∀ e, traceProvider env tc = .error e →
      Init env oc = (.error (.wrap "failed to create trace provider" e),
        [.setTextMapPropagator compositePropagator])) := by
  constructor
  · cases hp : traceProvider env tc with
    | error e => simp [Init, htc, hen, hp]
    | ok tp =>
      obtain ⟨tail, hteq⟩ := initMetricPhase_effects_append env oc []
        ([Effect.setTextMapPropagator compositePropagator] ++
          [Effect.setTracerProvider tp])
      simp only [Init, htc, hen, if_pos, hp]
      rw [hteq]
      rfl
  · intro e hp
    simp [Init, htc, hen, hp]

/-- Witness for C5: a client with tracing enabled in an environment
where the span exporter fails to build. -/
theorem init_propagator_precedes_trace_build_witness :
    (Init envTraceFail ocTraceOnly).2.head? =
      some (.setTextMapPropagator compositePropagator) ∧
    Init envTraceFail ocTraceOnly =
      (.error (.wrap "failed to create trace provider" (.mk "dial error")),
        [.setTextMapPropagator compositePropagator]) := by
  have h := init_propagator_precedes_trace_build envTraceFail ocTraceOnly tcA rfl rfl
  exact ⟨h.1, h.2 (.mk "dial error") rfl⟩

/-- A string contains its own suffix. -/
theorem strContains_of_append (a s : String) : strContains (a ++ s) s :=
  ⟨a, "", by rw [String.append_empty]⟩

/-- Tracing does not preempt the metric phase: either no enabled trace
config is present, or trace provider construction succeeds. -/
def traceBuildSucceedsIfEnabled (env : Env) (oc : OotelClient) : Prop :=
  ∀ tc, oc.traceConfig = some tc → tc.Enabled = true →
    ∃ tp, traceProvider env tc = .ok tp

/-- The metric phase on an enabled config with an unsupported exporter
type returns the wrapped unsupported-type error and adds no effect. -/
theorem initMetricPhase_unsupported (env : Env) (oc : OotelClient)
    (mc : metricConfig) (funcs : List RegisteredShutdown) (effs : List Effect)
    (hmc : oc.metricConfig = some mc) (hen : mc.Enabled = true)
    (h1 : mc.ExporterType ≠ ExporterTypePrometheus)
    (h2 : mc.ExporterType ≠ ExporterTypeOTLPGRPC)
    (h3 : mc.ExporterType ≠ ExporterTypeOTLPHTTP) :
    initMetricPhase env oc funcs effs =
      (.error (.wrap "failed to create meter provider"
        (.mk ("unsupported metric exporter type: " ++ mc.ExporterType))), effs) := by
  have hmeter : meterProvider env mc.ExporterType =
      .error (.mk ("unsupported metric exporter type: " ++ mc.ExporterType)) := by
    unfold meterProvider
    rw [if_neg h1, if_neg h2, if_neg h3]
  simp [initMetricPhase, hmc, hen, hmeter]

/-- C2: on an enabled metric config whose exporter type is none of
`prometheus`, `otlpgrpc`, `otlphttp`, `Init` returns a nil shutdown
function together with an error, installs no global meter provider and
starts no server; and whenever tracing does not already abort the run,
the error is exactly the wrapped unsupported-exporter-type error, whose
rendered message contains the offending exporter-type string. -/
theorem init_unsupported_exporter_type (env : Env) (oc : OotelClient)
    (mc : metricConfig) (hmc : oc.metricConfig = some mc)
    (hen : mc.Enabled = true)
    (h1 : mc.ExporterType ≠ ExporterTypePrometheus)
    (h2 : mc.ExporterType ≠ ExporterTypeOTLPGRPC)
    (h3 : mc.ExporterType ≠ ExporterTypeOTLPHTTP) :
    (∃ e, (Init env oc).1 = .error e) ∧
    (∀ mp, Effect.setMeterProvider mp ∉ (Init env oc).2) ∧
    (∀ p b, Effect.startServerAsync p b ∉ (Init env oc).2) ∧
    (traceBuildSucceedsIfEnabled env oc →
      (Init env oc).1 = .error (.wrap "failed to create meter provider"
        (.mk ("unsupported metric exporter type: " ++ mc.ExporterType))) ∧
      ∃ e, (Init env oc).1 = .error e ∧
        strContains (GoErr.render e) mc.ExporterType) := by
  have hphase := fun funcs effs =>
    initMetricPhase_unsupported env oc mc funcs effs hmc hen h1 h2 h3
  have hmsg : strContains (GoErr.render (.wrap "failed to create meter provider"
      (.mk ("unsupported metric exporter type: " ++ mc.ExporterType))))
      mc.ExporterType := by
    show strContains ("failed to create meter provider" ++ ": " ++
      ("unsupported metric exporter type: " ++ mc.ExporterType)) mc.ExporterType
    rw [← String.append_assoc]
    exact strContains_of_append _ _
  rcases hoc : oc.traceConfig with _ | tc
  · rw [Init, hoc]
    rw [hphase [] []]
    exact ⟨⟨_, rfl⟩, by simp, by simp, fun _ => ⟨rfl, _, rfl, hmsg⟩⟩
  · cases henT : tc.Enabled with
    | false =>
      rw [Init, hoc]
      simp only [henT, Bool.false_eq_true, if_false]
      rw [hphase [] []]
      exact ⟨⟨_, rfl⟩, by simp, by simp, fun _ => ⟨rfl, _, rfl, hmsg⟩⟩
    | true =>
      cases hp : traceProvider env tc with
      | error e =>
        rw [Init, hoc]
        simp only [henT, if_true, hp]
        refine ⟨⟨_, rfl⟩, by simp, by simp, fun htr => ?_⟩
        obtain ⟨tp, htp⟩ := htr tc hoc henT
        rw [hp] at htp
        exact absurd htp (by simp)
      | ok tp =>
        rw [Init, hoc]
        simp only [henT, if_true, hp]
        rw [hphase [] _]
        exact ⟨⟨_, rfl⟩, by simp, by simp, fun _ => ⟨rfl, _, rfl, hmsg⟩⟩

/-- Witness for C2: a client whose metric exporter type is `bogus`. -/
theorem init_unsupported_exporter_type_witness :
    (∃ e, (Init envA ocBogus).1 = .error e) ∧
    (∀ mp, Effect.setMeterProvider mp ∉ (Init envA ocBogus).2) ∧
    (∀ p b, Effect.startServerAsync p b ∉ (Init envA ocBogus).2) ∧
    (traceBuildSucceedsIfEnabled envA ocBogus →
      (Init envA ocBogus).1 = .error (.wrap "failed to create meter provider"
        (.mk ("unsupported metric exporter type: " ++ mcBogus.ExporterType))) ∧
      ∃ e, (Init envA ocBogus).1 = .error e ∧
        strContains (GoErr.render e) mcBogus.ExporterType) :=
  init_unsupported_exporter_type envA ocBogus mcBogus rfl rfl
    (by decide) (by decide) (by decide)

/-- The health route is registered in every mux `startServer` builds. -/
theorem startServerRoutes_health (isProm : Bool) :
    List.lookup "/healthcheck" (startServerRoutes isProm) =
      some Handler.healthcheck := by
  cases isProm <;> rfl

/-- The metrics route is registered exactly when the flag is true. -/
theorem startServerRoutes_metrics_iff (isProm : Bool) :
    (List.lookup "/metrics" (startServerRoutes isProm)).isSome ↔
      isProm = true := by
  cases isProm <;> simp [startServerRoutes, List.lookup]

/-- C3: for every enabled metric config on a successful run, `Init`
forks the server with the configured port and the
`ExporterType == "prometheus"` flag; the mux that server builds always
registers the health route, registers the metrics-scrape route exactly
when the exporter kind is `prometheus`, and for the push-based kinds a
request to `/metrics` is unhandled (status 404) while a request to the
health route is still dispatched to the health handler. -/
theorem init_server_routes (env : Env) (oc : OotelClient) (mc : metricConfig)
    (funcs : List RegisteredShutdown)
    (hmc : oc.metricConfig = some mc) (hen : mc.Enabled = true)
    (hok : (Init env oc).1 = .ok funcs) :
    Effect.startServerAsync mc.ServerPort (mc.ExporterType == "prometheus") ∈
      (Init env oc).2 ∧
    List.lookup "/healthcheck"
      (startServerRoutes (mc.ExporterType == "prometheus")) =
      some Handler.healthcheck ∧
    ((List.lookup "/metrics"
      (startServerRoutes (mc.ExporterType == "prometheus"))).isSome ↔
      (mc.ExporterType == "prometheus") = true) ∧
    ((mc.ExporterType = ExporterTypeOTLPGRPC ∨
        mc.ExporterType = ExporterTypeOTLPHTTP) →
      ∀ m b,
        (serveRequest env (startServerRoutes (mc.ExporterType == "prometheus"))
          ⟨m, "/metrics", b⟩).status = 404 ∧
        serveRequest env (startServerRoutes (mc.ExporterType == "prometheus"))
          ⟨m, "/healthcheck", b⟩ =
          HealthcheckHandler env ⟨m, "/healthcheck", b⟩) := by
  refine ⟨?_, startServerRoutes_health _, startServerRoutes_metrics_iff _, ?_⟩
  · have hserver : ∀ (effs : List Effect),
        (initMetricPhase env oc [] effs).1 = .ok funcs →
        Effect.startServerAsync mc.ServerPort (mc.ExporterType == "prometheus") ∈
          (initMetricPhase env oc [] effs).2 := by
      intro effs hphase
      rw [initMetricPhase, hmc] at hphase ⊢
      simp only [hen, if_true] at hphase ⊢
      cases hmp : meterProvider env mc.ExporterType with
      | error e => rw [hmp] at hphase; exact absurd hphase (by simp)
      | ok mp => simp [hmp]
    rcases hoc : oc.traceConfig with _ | tc
    · rw [Init, hoc] at hok ⊢
      exact hserver [] hok
    · cases henT : tc.Enabled with
      | false =>
        rw [Init, hoc] at hok ⊢
        simp only [henT, Bool.false_eq_true, if_false] at hok ⊢
        exact hserver [] hok
      | true =>
        cases hp : traceProvider env tc with
        | error e =>
          rw [Init, hoc] at hok
          simp only [henT, if_true, hp] at hok
          exact Except.noConfusion hok
        | ok tp =>
          rw [Init, hoc] at hok ⊢
          simp only [henT, if_true, hp] at hok ⊢
          exact hserver _ hok
  · intro hpush m b
    have hflag : (mc.ExporterType == "prometheus") = false := by
      rcases hpush with h | h <;> rw [h] <;> rfl
    rw [hflag]
    exact ⟨rfl, rfl⟩

/-- Witness for C3: a client with an enabled OTLP gRPC metric config in
the healthy environment. -/
theorem init_server_routes_witness :
    Effect.startServerAsync mcGrpc.ServerPort (mcGrpc.ExporterType == "prometheus") ∈
      (Init envA ocGrpcOnly).2 ∧
    List.lookup "/healthcheck"
      (startServerRoutes (mcGrpc.ExporterType == "prometheus")) =
      some Handler.healthcheck ∧
    ((List.lookup "/metrics"
      (startServerRoutes (mcGrpc.ExporterType == "prometheus"))).isSome ↔
      (mcGrpc.ExporterType == "prometheus") = true) ∧
    ((mcGrpc.ExporterType = ExporterTypeOTLPGRPC ∨
        mcGrpc.ExporterType = ExporterTypeOTLPHTTP) →
      ∀ m b,
        (serveRequest envA (startServerRoutes (mcGrpc.ExporterType == "prometheus"))
          ⟨m, "/metrics", b⟩).status = 404 ∧
        serveRequest envA (startServerRoutes (mcGrpc.ExporterType == "prometheus"))
          ⟨m, "/healthcheck", b⟩ =
          HealthcheckHandler envA ⟨m, "/healthcheck", b⟩) :=
  init_server_routes envA ocGrpcOnly mcGrpc
    [RegisteredShutdown.meterProviderShutdown mpGrpcA] rfl rfl rfl

/-- Counterexample to C1 as stated: with both tracing and prometheus
metrics enabled in a healthy environment, tracing is initialized and the
tracer provider installed, yet the registered teardown list `Init`
returns holds only the meter provider's shutdown — no teardown for the
tracer provider is among the callables the returned shutdown invokes. -/
theorem init_shutdown_misses_tracer_cex :
    Effect.setTracerProvider tpA ∈ (Init envA ocBoth).2 ∧
    (Init envA ocBoth).1 =
      .ok [RegisteredShutdown.meterProviderShutdown mpPromA] ∧
    (∀ tp, RegisteredShutdown.tracerProviderShutdown tp ∉
      [RegisteredShutdown.meterProviderShutdown mpPromA]) := by
  refine ⟨?_, rfl, ?_⟩
  · have h2 : (Init envA ocBoth).2 =
        [Effect.setTextMapPropagator compositePropagator,
         Effect.setTracerProvider tpA,
         Effect.setMeterProvider mpPromA,
         Effect.startServerAsync 8081 true] := rfl
    rw [h2]
    exact List.Mem.tail _ (List.Mem.head _)
  · intro tp h
    simp at h

/-- C1 as amended: the shutdown returned by `Init` covers exactly the
metric subsystem — whenever metrics was enabled on a successful run, the
installed meter provider's teardown is among the registered callables
the returned shutdown invokes, while no teardown for the tracer provider
is ever registered, even on runs where tracing was initialized. -/
theorem init_shutdown_covers_meter_only (env : Env) (oc : OotelClient)
    (mc : metricConfig) (funcs : List RegisteredShutdown)
    (effects : List Effect) (hmc : oc.metricConfig = some mc)
    (hen : mc.Enabled = true) (hinit : Init env oc = (.ok funcs, effects)) :
    (∃ mp, Effect.setMeterProvider mp ∈ effects ∧
      RegisteredShutdown.meterProviderShutdown mp ∈ funcs) ∧
    (∀ tp, RegisteredShutdown.tracerProviderShutdown tp ∉ funcs) := by
  have hphase : ∀ (effs : List Effect),
      initMetricPhase env oc [] effs = (.ok funcs, effects) →
      (∃ mp, Effect.setMeterProvider mp ∈ effects ∧
        RegisteredShutdown.meterProviderShutdown mp ∈ funcs) ∧
      (∀ tp, RegisteredShutdown.tracerProviderShutdown tp ∉ funcs) := by
    intro effs hphase
    rw [initMetricPhase, hmc] at hphase
    simp only [hen, if_true] at hphase
    cases hmp : meterProvider env mc.ExporterType with
    | error e =>
      rw [hmp] at hphase
      exact absurd hphase (by simp)
    | ok mp =>
      rw [hmp] at hphase
      simp only [List.nil_append, Prod.mk.injEq, Except.ok.injEq] at hphase
      obtain ⟨hfuncs, heffs⟩ := hphase
      subst heffs
      subst hfuncs
      refine ⟨⟨mp, by simp, by simp⟩, ?_⟩
      intro tp htp
      simp at htp
  rcases hoc : oc.traceConfig with _ | tc
  · rw [Init, hoc] at hinit
    exact hphase [] hinit
  · cases henT : tc.Enabled with
    | false =>
      rw [Init, hoc] at hinit
      simp only [henT, Bool.false_eq_true, if_false] at hinit
      exact hphase [] hinit
    | true =>
      cases hp : traceProvider env tc with
      | error e =>
        rw [Init, hoc] at hinit
        simp only [henT, if_true, hp] at hinit
        exact absurd hinit (by simp)
      | ok tp =>
        rw [Init, hoc] at hinit
        simp only [henT, if_true, hp] at hinit
        exact hphase _ hinit

/-- Witness for the amended C1 at the example client with tracing and
prometheus metrics both enabled. -/
theorem init_shutdown_covers_meter_only_witness :
    (∃ mp, Effect.setMeterProvider mp ∈
        [Effect.setTextMapPropagator compositePropagator,
         Effect.setTracerProvider tpA,
         Effect.setMeterProvider mpPromA,
         Effect.startServerAsync 8081 true] ∧
      RegisteredShutdown.meterProviderShutdown mp ∈
        [RegisteredShutdown.meterProviderShutdown mpPromA]) ∧
    (∀ tp, RegisteredShutdown.tracerProviderShutdown tp ∉
      [RegisteredShutdown.meterProviderShutdown mpPromA]) :=
  init_shutdown_covers_meter_only envA ocBoth mcProm
    [RegisteredShutdown.meterProviderShutdown mpPromA]
    [Effect.setTextMapPropagator compositePropagator,
     Effect.setTracerProvider tpA,
     Effect.setMeterProvider mpPromA,
     Effect.startServerAsync 8081 true] rfl rfl rfl

end Ootel
